import Mathlib

/-
  Verification development for the Hyperliquid breakout trading bot.

  Shallow embedding conventions:
  - decimal.js arbitrary-precision decimals are modelled as exact rationals (ℚ);
    all decimal comparisons in the source are exact, and every numeric literal
    that the source feeds to decimal.js converts exactly (decimal.js converts a
    JS number through its shortest decimal string).  Division is modelled by
    rational division; decimal.js division rounds to 20 significant digits and
    division by zero yields Infinity, while rational division by zero yields 0 -
    the difference is only observable on degenerate configurations (period 0)
    that the config validation of the repository rejects.
  - JS Date.now() timestamps are modelled as Int (milliseconds).
  - The per-symbol maps of the strategy are modelled as total functions from
    symbol to Option/List/Nat with Function.update for set and delete.
  - Thrown exceptions (InsufficientDataError and friends) are modelled with
    Except String; a try/catch block is a pattern match on the Except value.
  - External calls (exchange client, notifications) are modelled by passing the
    call outcome in as a parameter and by recording emitted notifications and
    order attempts in the result.
-/

/-- One candle of market data, as in the PriceData interface of
src/src/core/indicators/TechnicalIndicators.ts (high, low, close, volume are
decimals; the timestamp is a JS Date in milliseconds). -/
structure PriceData where
  high : ℚ
  low : ℚ
  close : ℚ
  volume : ℚ
  timestamp : Int
deriving DecidableEq

/-- Trend classification returned by detectTrend. -/
inductive Trend where
  | UPTREND
  | DOWNTREND
  | SIDEWAYS
deriving DecidableEq

/-- Breakout direction returned by detectBreakout (null is modelled as none). -/
inductive BreakoutDir where
  | BULLISH
  | BEARISH
deriving DecidableEq

/-- Price structure classification returned by detectPriceStructure. -/
inductive PriceStructure where
  | HIGHER_HIGHS
  | LOWER_LOWS
  | CHOPPY
deriving DecidableEq

/-- Order side, from src/src/core/exchange/types.ts. -/
inductive OrderSide where
  | BUY
  | SELL
deriving DecidableEq

/-- JS Array.prototype.slice with a single negative argument: slice(-k) keeps
the last k elements, and slice(-0) = slice(0) keeps the whole list. -/
def sliceNeg (l : List α) (k : Nat) : List α :=
  if k = 0 then l else l.drop (l.length - k)

/-- Decimal.max over a list of rationals (the source always applies it to a
non-empty list; on [] decimal.js would produce NaN, here we return 0). -/
def maxQ (l : List ℚ) : ℚ :=
  match l with
  | [] => 0
  | a :: as => as.foldl max a

/-- Decimal.min over a list of rationals (same conventions as maxQ). -/
def minQ (l : List ℚ) : ℚ :=
  match l with
  | [] => 0
  | a :: as => as.foldl min a

/-- Close of the last candle of a list (the source indexes
history[history.length - 1] only when the list is known non-empty). -/
def lastClose (l : List PriceData) : ℚ :=
  ((l.getLast?).map PriceData.close).getD 0

/-- Last element of a list of rationals, defaulting to 0 on []. -/
def lastQ (l : List ℚ) : ℚ :=
  (l.getLast?).getD 0

/-- Whether pat occurs at the head of s (character-wise). -/
def leadsWith : List Char → List Char → Bool
  | [], _ => true
  | _ :: _, [] => false
  | a :: as, b :: bs => a == b && leadsWith as bs

/-- Whether pat occurs as a contiguous subsequence of s; this is JS
String.prototype.includes restricted to the use in the source. -/
def containsSeq (pat : List Char) : List Char → Bool
  | [] => leadsWith pat []
  | b :: bs => leadsWith pat (b :: bs) || containsSeq pat bs

/-- The reason.includes of BreakoutStrategy.closePosition: does the close
reason mention the four characters of the word stop. -/
def reasonMentionsStop (reason : String) : Bool :=
  containsSeq ("stop".toList) (reason.toList)

namespace Indicators

/- Indicator functions shared verbatim by both TechnicalIndicators variants
(src/src/core/indicators/TechnicalIndicators.ts and src/unnamed/part_005). -/

/-- Core of calculateSMA: arithmetic mean of the last periods values (callers
guard length ≥ periods; matches prices.slice(-periods) summed / periods). -/
def smaOf (prices : List ℚ) (periods : Nat) : ℚ :=
  ((sliceNeg prices periods).foldl (· + ·) 0) / periods

/-- TechnicalIndicators.calculateSMA with its insufficient-data throw. -/
def calculateSMA (prices : List ℚ) (periods : Nat) : Except String ℚ :=
  if prices.length < periods then .error "Insufficient data for SMA calculation"
  else .ok (smaOf prices periods)

/-- Core of calculateEMA: seed with the SMA of the first periods values, then
fold the remaining values with multiplier 2/(periods+1). -/
def emaFrom (prices : List ℚ) (periods : Nat) : ℚ :=
  let multiplier : ℚ := 2 / (periods + 1)
  (prices.drop periods).foldl
    (fun ema p => p * multiplier + ema * (1 - multiplier))
    (smaOf (prices.take periods) periods)

/-- TechnicalIndicators.calculateEMA with its insufficient-data throw. -/
def calculateEMA (prices : List ℚ) (periods : Nat) : Except String ℚ :=
  if prices.length < periods then .error "Insufficient data for EMA calculation"
  else .ok (emaFrom prices periods)

/-- The list of true ranges TR_i = max(high-low, |high-prevClose|,
|low-prevClose|) over consecutive candle pairs, as built by calculateATR. -/
def trueRanges (prices : List PriceData) : List ℚ :=
  (prices.zip (prices.drop 1)).map fun pr =>
    max (pr.2.high - pr.2.low) (max |pr.2.high - pr.1.close| |pr.2.low - pr.1.close|)

/-- Core of calculateATR: simple mean of the last periods true ranges. -/
def atrFrom (prices : List PriceData) (periods : Nat) : ℚ :=
  ((sliceNeg (trueRanges prices) periods).foldl (· + ·) 0) / periods

/-- TechnicalIndicators.calculateATR with its insufficient-data throw. -/
def calculateATR (prices : List PriceData) (periods : Nat) : Except String ℚ :=
  if prices.length < periods + 1 then .error "Insufficient data for ATR calculation"
  else .ok (atrFrom prices periods)

/-- The window used by calculateResistance and calculateSupport:
prices.slice(-lookbackPeriod - 1, -1), the lookback candles that precede the
current (last) candle. -/
def srWindow (prices : List PriceData) (lookbackPeriod : Nat) : List PriceData :=
  (prices.take (prices.length - 1)).drop (prices.length - (lookbackPeriod + 1))

/-- TechnicalIndicators.calculateResistance: max high over the window that
excludes the current candle; throws when fewer than lookbackPeriod + 1 candles
are available. -/
def calculateResistance (prices : List PriceData) (lookbackPeriod : Nat) : Except String ℚ :=
  if prices.length < lookbackPeriod + 1 then .error "Insufficient data"
  else .ok (maxQ ((srWindow prices lookbackPeriod).map PriceData.high))

/-- TechnicalIndicators.calculateSupport: min low over the same window. -/
def calculateSupport (prices : List PriceData) (lookbackPeriod : Nat) : Except String ℚ :=
  if prices.length < lookbackPeriod + 1 then .error "Insufficient data"
  else .ok (minQ ((srWindow prices lookbackPeriod).map PriceData.low))

/-- TechnicalIndicators.calculateAverageVolume: mean volume over the trailing
periods candles (window includes the current candle). -/
def calculateAverageVolume (prices : List PriceData) (periods : Nat) : Except String ℚ :=
  if prices.length < periods then .error "Insufficient data"
  else .ok (((sliceNeg prices periods).foldl (fun s p => s + p.volume) (0 : ℚ)) / periods)

/-- TechnicalIndicators.isVolumeSpike: currentVolume > averageVolume × multiplier. -/
def isVolumeSpike (currentVolume averageVolume : ℚ) (multiplier : ℚ) : Bool :=
  decide (averageVolume * multiplier < currentVolume)

/-- TechnicalIndicators.detectBreakout: BULLISH above resistance × (1+buffer),
BEARISH below support × (1-buffer), both strict, else null. -/
def detectBreakout (currentPrice resistance support buffr : ℚ) : Option BreakoutDir :=
  if resistance * (1 + buffr) < currentPrice then some .BULLISH
  else if currentPrice < support * (1 - buffr) then some .BEARISH
  else none

/-- TechnicalIndicators.detectPriceStructure: split the last 2 × lookback
candles into halves; both high and low rising gives HIGHER_HIGHS, both falling
gives LOWER_LOWS, anything else (or insufficient data) gives CHOPPY. -/
def detectPriceStructure (prices : List PriceData) (lookback : Nat) : PriceStructure :=
  if prices.length < lookback * 2 then .CHOPPY
  else
    let recentPrices := sliceNeg prices (lookback * 2)
    let firstHalf := recentPrices.take lookback
    let secondHalf := recentPrices.drop lookback
    let firstHigh := maxQ (firstHalf.map PriceData.high)
    let firstLow := minQ (firstHalf.map PriceData.low)
    let secondHigh := maxQ (secondHalf.map PriceData.high)
    let secondLow := minQ (secondHalf.map PriceData.low)
    if firstHigh < secondHigh ∧ firstLow < secondLow then .HIGHER_HIGHS
    else if secondHigh < firstHigh ∧ secondLow < firstLow then .LOWER_LOWS
    else .CHOPPY

/-- Result record of TechnicalIndicators.isEmaAligned.  The diagnostic reason
strings of the source interpolate the numeric values; the embedding keeps only
the fixed text (no caller branches on the text). -/
structure EmaCheck where
  aligned : Bool
  reason : String
deriving DecidableEq

/-- TechnicalIndicators.isEmaAligned: price > EMA9 > EMA21 > EMA50 for BULLISH,
the mirrored strict chain for BEARISH, with the first failing inequality
reported; below 50 candles it reports insufficient data. -/
def isEmaAligned (prices : List PriceData) (direction : BreakoutDir) : EmaCheck :=
  if prices.length < 50 then ⟨false, "Insufficient data for EMA alignment"⟩
  else
    let closePrices := prices.map PriceData.close
    let currentPrice := lastQ closePrices
    let ema9 := emaFrom closePrices 9
    let ema21 := emaFrom closePrices 21
    let ema50 := emaFrom closePrices 50
    match direction with
    | .BULLISH =>
      if ema9 < currentPrice ∧ ema21 < ema9 ∧ ema50 < ema21 then
        ⟨true, "EMAs bullish aligned"⟩
      else if ¬ ema9 < currentPrice then ⟨false, "Price below EMA9"⟩
      else if ¬ ema21 < ema9 then ⟨false, "EMA9 below EMA21"⟩
      else ⟨false, "EMA21 below EMA50"⟩
    | .BEARISH =>
      if currentPrice < ema9 ∧ ema9 < ema21 ∧ ema21 < ema50 then
        ⟨true, "EMAs bearish aligned"⟩
      else if ¬ currentPrice < ema9 then ⟨false, "Price above EMA9"⟩
      else if ¬ ema9 < ema21 then ⟨false, "EMA9 above EMA21"⟩
      else ⟨false, "EMA21 above EMA50"⟩

/-- The list of successive close-to-close changes, as built by both
calculateRSI variants. -/
def priceChanges (prices : List PriceData) : List ℚ :=
  (prices.zip (prices.drop 1)).map fun pr => pr.2.close - pr.1.close

end Indicators

namespace IndicatorsA

/- Variant A of TechnicalIndicators: src/src/core/indicators/TechnicalIndicators.ts. -/

/-- Variant A calculateRSI: simple averages of gains and losses over the
trailing periods changes only; returns 100 exactly when the average loss over
that window is zero. -/
def calculateRSI (prices : List PriceData) (periods : Nat := 14) : Except String ℚ :=
  if prices.length < periods + 1 then .error "Insufficient data for RSI calculation"
  else
    let changes := Indicators.priceChanges prices
    let recentChanges := sliceNeg changes periods
    let gains := recentChanges.filter fun c => decide (0 < c)
    let losses := (recentChanges.filter fun c => decide (c < 0)).map (|·|)
    let totalGain := gains.foldl (· + ·) (0 : ℚ)
    let totalLoss := losses.foldl (· + ·) (0 : ℚ)
    let avgGain := totalGain / periods
    let avgLoss := totalLoss / periods
    if avgLoss = 0 then .ok 100
    else .ok (100 - 100 / (avgGain / avgLoss + 1))

end IndicatorsA

namespace IndicatorsB

/- Variant B of TechnicalIndicators: src/unnamed/part_005 (3-layer detectTrend,
Wilder-smoothed RSI).  The BreakoutStrategy embedding below uses this variant. -/

/-- Variant B calculateRSI: Wilder smoothing.  Gains and losses are computed
for every change of the whole history, the first periods of them seed the
averages, and the remaining ones are folded with
avg = (avg × (periods-1) + current) / periods. -/
def calculateRSI (prices : List PriceData) (periods : Nat := 14) : Except String ℚ :=
  if prices.length < periods + 1 then .error "Insufficient data for RSI calculation"
  else
    let gl : List (ℚ × ℚ) :=
      (Indicators.priceChanges prices).map fun c =>
        if 0 < c then (c, 0) else (0, |c|)
    let seedGain := ((gl.take periods).foldl (fun s p => s + p.1) (0 : ℚ)) / periods
    let seedLoss := ((gl.take periods).foldl (fun s p => s + p.2) (0 : ℚ)) / periods
    let smoothingFactor : ℚ := (periods : ℚ) - 1
    let final := (gl.drop periods).foldl
      (fun avgs p =>
        ((avgs.1 * smoothingFactor + p.1) / periods,
         (avgs.2 * smoothingFactor + p.2) / periods))
      (seedGain, seedLoss)
    if final.2 = 0 then .ok 100
    else .ok (100 - 100 / (final.1 / final.2 + 1))

/-- Variant B detectTrend: the 3-layer gate.  Layer 1 compares the 10-candle
range against 2 × ATR(14) (both expressed as fractions of the current price);
layer 2 requires a clean higher-high/higher-low (or mirrored) structure over
the last 20 candles split in half; layer 3 requires the EMA20/EMA50/EMA200
stack.  Fewer than longPeriod candles short-circuits to SIDEWAYS, but the
EMA calls themselves can still fail for histories shorter than 200 candles,
and that failure propagates to the caller. -/
def detectTrend (prices : List PriceData) (shortPeriod : Nat := 20)
    (longPeriod : Nat := 50) : Except String Trend :=
  if prices.length < longPeriod then .ok .SIDEWAYS
  else
    let recent := sliceNeg prices shortPeriod
    let currentPrice := lastClose recent
    match Indicators.calculateATR prices 14 with
    | .error e => .error e
    | .ok atr =>
      let recent10 := sliceNeg prices 10
      let recentHigh := maxQ (recent10.map PriceData.high)
      let recentLow := minQ (recent10.map PriceData.low)
      let priceRangePct := (recentHigh - recentLow) / currentPrice
      let atrPct := atr / currentPrice
      if priceRangePct < atrPct * 2 then .ok .SIDEWAYS
      else
        let firstHalf := (prices.drop (prices.length - 20)).take 10
        let secondHalf := prices.drop (prices.length - 10)
        let firstHalfHigh := maxQ (firstHalf.map PriceData.high)
        let secondHalfHigh := maxQ (secondHalf.map PriceData.high)
        let firstHalfLow := minQ (firstHalf.map PriceData.low)
        let secondHalfLow := minQ (secondHalf.map PriceData.low)
        let structureBullish :=
          firstHalfHigh < secondHalfHigh ∧ firstHalfLow < secondHalfLow
        let structureBearish :=
          secondHalfHigh < firstHalfHigh ∧ secondHalfLow < firstHalfLow
        if ¬ structureBullish ∧ ¬ structureBearish then .ok .SIDEWAYS
        else
          let closePrices := prices.map PriceData.close
          match Indicators.calculateEMA closePrices 20 with
          | .error e => .error e
          | .ok emaFast =>
            match Indicators.calculateEMA closePrices 50 with
            | .error e => .error e
            | .ok emaSlow =>
              match Indicators.calculateEMA closePrices 200 with
              | .error e => .error e
              | .ok emaTrend =>
                let emaBullish := emaSlow < emaFast ∧ emaTrend < emaSlow
                let emaBearish := emaFast < emaSlow ∧ emaSlow < emaTrend
                if structureBullish ∧ emaBullish then .ok .UPTREND
                else if structureBearish ∧ emaBearish then .ok .DOWNTREND
                else .ok .SIDEWAYS

end IndicatorsB

namespace HealthCheck

/-- HealthCheck.validatePriceHistory (src/src/utils/healthCheck.ts): the
history is valid when it is non-empty, long enough, and every candle has
positive high/low/close with high ≥ low. -/
def validatePriceHistory (history : List PriceData) (requiredPeriods : Nat) : Bool :=
  !history.isEmpty &&
    decide (requiredPeriods ≤ history.length) &&
    history.all fun c =>
      decide (0 < c.high) && decide (0 < c.low) && decide (0 < c.close) &&
        decide (c.low ≤ c.high)

/-- HealthCheck.validateSupportResistance: support and resistance must both be
positive with support strictly below resistance (the currentPrice argument is
unused in the source as well). -/
def validateSupportResistance (support resistance _currentPrice : ℚ) : Bool :=
  decide (0 < support) && decide (0 < resistance) && decide (support < resistance)

end HealthCheck

namespace Strategy

/- Embedding of BreakoutStrategy (src/unnamed/part_003, the variant with the
recently-closed guard and the flat 5 percent trailing stop).  It consumes the
part_005 TechnicalIndicators variant (IndicatorsB above). -/

/-- The BreakoutConfig interface of the strategy. -/
structure BreakoutConfig where
  lookbackPeriod : Nat
  volumeMultiplier : ℚ
  trailingStopPercent : ℚ
  positionSize : ℚ
  useScalping : Bool
  breakoutBuffer : ℚ
  takeProfitPercent : Option ℚ

/-- The global config fields that generateSignal reads (src/config/config.ts). -/
structure GlobalConfig where
  enableTrendFollowing : Bool
  trendFollowingSmaPeriod : Nat
  trendFollowingMinConsecutiveTrends : Nat
  trendFollowingMaxDistanceFromHigh : ℚ

/-- The Signal value object produced by generateSignal.  The reason field is a
free-text diagnostic; the source interpolates numeric values into it, the
embedding keeps only fixed text (no consumer branches on it). -/
structure Signal where
  symbol : String
  side : OrderSide
  entryPrice : ℚ
  stopLoss : ℚ
  takeProfit : Option ℚ
  confidence : ℚ
  reason : String
deriving DecidableEq

/-- Per-symbol trailing-stop tracker: the high field tracks the highest mark
price for longs and is repurposed as the lowest mark price for shorts. -/
structure TrailingStop where
  high : ℚ
  stop : ℚ
deriving DecidableEq

/-- An exchange position as reported by HyperliquidClient.getPositions. -/
structure Position where
  symbol : String
  side : OrderSide
  quantity : ℚ
  entryPrice : ℚ
  markPrice : ℚ
  unrealizedPnl : ℚ
deriving DecidableEq

/-- The mutable per-symbol maps of a BreakoutStrategy instance. -/
structure StrategyState where
  priceHistory : String → List PriceData
  activeSignals : String → Option Signal
  trailingStops : String → Option TrailingStop
  trendHistory : String → List Trend
  stopLossCooldowns : String → Option Int
  scanCounts : String → Nat
  recentlyClosedPositions : String → Option Int

/-- STOP_LOSS_COOLDOWN_MS = 15 minutes. -/
def stopLossCooldownMs : Int := 15 * 60 * 1000

/-- CLOSE_POSITION_COOLDOWN_MS = 2 minutes. -/
def closePositionCooldownMs : Int := 2 * 60 * 1000

/-- getTrailingStopPercent of src/unnamed/part_003: flat 5 percent for every
symbol. -/
def getTrailingStopPercent (_symbol : String) : ℚ := 5

/-- roundToIncrement rounds a price to the per-symbol price increment.  The
source converts the decimal to a JS number and uses Math.round on the
binary-float quotient; the embedding idealises that as exact decimal
rounding (round half toward positive infinity) - the float detour is the
subject of claim C9 and is not reproducible over exact rationals. -/
def roundToIncrement (price : ℚ) (symbol : String) : ℚ :=
  let increment : ℚ :=
    if symbol = "BTC" then 1
    else if symbol = "ETH" then 1/10
    else if symbol = "SOL" ∨ symbol = "BNB" ∨ symbol = "AVAX" then 1/100
    else if symbol = "LINK" ∨ symbol = "HYPE" then 1/1000
    else if symbol = "XRP" ∨ symbol = "SUI" then 1/10000
    else 1/1000
  (⌊price / increment + 1/2⌋ : ℤ) * increment

/-- Notifications emitted through the Telegram service. -/
inductive Event where
  | positionOpened (symbol : String)
  | positionClosed (symbol : String) (reason : String)
  | errorNote (context : String)
deriving DecidableEq

/-- updateTrendHistory: append the reading and drop the oldest when more than
10 are stored. -/
def updateTrendHistory (st : StrategyState) (symbol : String) (trend : Trend) :
    StrategyState :=
  let h := st.trendHistory symbol ++ [trend]
  let h := if 10 < h.length then h.drop 1 else h
  { st with trendHistory := Function.update st.trendHistory symbol h }

/-- hasConsecutiveTrend: the last minConsecutive stored readings all equal the
expected trend (false when fewer are stored). -/
def hasConsecutiveTrend (st : StrategyState) (symbol : String)
    (expectedTrend : Trend) (minConsecutive : Nat) : Bool :=
  let h := st.trendHistory symbol
  if h.length < minConsecutive then false
  else (sliceNeg h minConsecutive).all (· == expectedTrend)

/-- The large single-candle move detector inside the scan loop of
generateSignal: a close-to-close change beyond 5 percent combined with the
volume spike flag. -/
def largeMoveAt (history : List PriceData) (candle : PriceData)
    (candleVolumeSpike : Bool) (i : Nat) : Option BreakoutDir :=
  if 1 ≤ i then
    match history[i - 1]? with
    | some prevCandle =>
      let pctChange := (candle.close - prevCandle.close) / prevCandle.close * 100
      if pctChange < -5 ∧ candleVolumeSpike then some .BEARISH
      else if 5 < pctChange ∧ candleVolumeSpike then some .BULLISH
      else none
    | none => none
  else none

/-- The cumulative-move detector: for window sizes 2..5 ending at candle i,
a cumulative change beyond 1.75 percent whose window-average volume is at
least 0.2 of the baseline average, first matching window wins. -/
def cumulativeScan (history : List PriceData) (avgVolume : ℚ) (candle : PriceData)
    (i : Nat) : List Nat → Option BreakoutDir
  | [] => none
  | w :: ws =>
    if w - 1 ≤ i then
      let startIdx := i + 1 - w
      match history[startIdx]? with
      | some startCandle =>
        let cumulativeChange :=
          (candle.close - startCandle.close) / startCandle.close * 100
        let totalVolume :=
          ((history.drop startIdx).take w).foldl (fun s p => s + p.volume) (0 : ℚ)
        let avgWindowVolume := totalVolume / (w : ℚ)
        let volumeFrac := avgWindowVolume / avgVolume
        if cumulativeChange < -(7/4) ∧ (1/5 : ℚ) ≤ volumeFrac then some .BEARISH
        else if (7/4 : ℚ) < cumulativeChange ∧ (1/5 : ℚ) ≤ volumeFrac then some .BULLISH
        else cumulativeScan history avgVolume candle i ws
      | none => cumulativeScan history avgVolume candle i ws
    else cumulativeScan history avgVolume candle i ws

/-- One iteration of the candle scan: the candidate signal type (breakout,
else large move, else cumulative move) provided the volume condition holds. -/
def evalCandidate (cfg : BreakoutConfig) (history : List PriceData)
    (resistance support avgVolume : ℚ) (i : Nat) : Option BreakoutDir :=
  match history[i]? with
  | none => none
  | some candle =>
    let candleBreakout :=
      Indicators.detectBreakout candle.close resistance support cfg.breakoutBuffer
    let candleVolumeSpike :=
      Indicators.isVolumeSpike candle.volume avgVolume cfg.volumeMultiplier
    let largeMoveType := largeMoveAt history candle candleVolumeSpike i
    let cumulativeMoveType :=
      if 1 ≤ i then cumulativeScan history avgVolume candle i [2, 3, 4, 5] else none
    let signalType := candleBreakout <|> largeMoveType <|> cumulativeMoveType
    let volumeOK := candleVolumeSpike || cumulativeMoveType.isSome
    match signalType with
    | some dir => if volumeOK then some dir else none
    | none => none

/-- The scan loop over the last candles, newest first: accept the first
candidate whose direction also passes the price-location sanity check
(BULLISH needs the current price above support, BEARISH below resistance);
a failed sanity check continues the scan. -/
def scanCandles (cfg : BreakoutConfig) (history : List PriceData)
    (resistance support avgVolume currentPrice : ℚ) :
    List Nat → Option (PriceData × BreakoutDir)
  | [] => none
  | i :: rest =>
    let next := scanCandles cfg history resistance support avgVolume currentPrice rest
    match evalCandidate cfg history resistance support avgVolume i with
    | some dir =>
      match history[i]? with
      | some candle =>
        if dir = .BULLISH ∧ support < currentPrice then some (candle, .BULLISH)
        else if dir = .BEARISH ∧ currentPrice < resistance then some (candle, .BEARISH)
        else next
      | none => next
    | none => next

/-- Indices scanned by generateSignal: history.length - 1 down to
history.length - candleLookback with candleLookback = min 5 length. -/
def scanIndices (n : Nat) : List Nat :=
  (List.range (min 5 n)).map fun k => n - 1 - k

/-- The rejection filters and signal construction applied to an accepted
breakout candidate (strict trend alignment, EMA stacking, price-structure
vetoes, RSI extremity veto, then entry/stop/take-profit/confidence). -/
def applyFilters (cfg : BreakoutConfig) (symbol : String) (history : List PriceData)
    (trend : Trend) (priceStructure : PriceStructure) (breakout : BreakoutDir)
    (currentPrice : ℚ) : Option Signal :=
  if breakout = .BULLISH ∧ trend ≠ .UPTREND then none
  else if breakout = .BEARISH ∧ trend ≠ .DOWNTREND then none
  else if ¬ (Indicators.isEmaAligned history breakout).aligned then none
  else if breakout = .BULLISH ∧ priceStructure = .LOWER_LOWS then none
  else if breakout = .BEARISH ∧ priceStructure = .HIGHER_HIGHS then none
  else if priceStructure = .CHOPPY then none
  else
    match IndicatorsB.calculateRSI history 14 with
    | .error _ => none
    | .ok rsi =>
      if breakout = .BULLISH ∧ (70 : ℚ) < rsi then none
      else if breakout = .BEARISH ∧ rsi < (30 : ℚ) then none
      else
        let side := if breakout = .BULLISH then OrderSide.BUY else OrderSide.SELL
        let entryPrice := currentPrice
        let trailingStopPct := getTrailingStopPercent symbol
        let stopLoss :=
          if breakout = .BULLISH then entryPrice * (1 - trailingStopPct / 100)
          else entryPrice * (1 + trailingStopPct / 100)
        match Indicators.calculateATR history (min 14 (history.length - 1)) with
        | .error _ => none
        | .ok atr =>
          let atrPercent := atr / entryPrice * 100
          let confidence1 : ℚ := if (1 : ℚ) < atrPercent then 7/10 + 1/10 else 7/10
          let takeProfit := cfg.takeProfitPercent.map fun tp =>
            if breakout = .BULLISH then entryPrice * (1 + tp / 100)
            else entryPrice * (1 - tp / 100)
          let confidence2 :=
            if (breakout = .BULLISH ∧ priceStructure = .HIGHER_HIGHS) ∨
               (breakout = .BEARISH ∧ priceStructure = .LOWER_LOWS) then
              confidence1 + 1/10
            else confidence1
          let confidence := confidence2 + 1/10
          some ⟨symbol, side, entryPrice, stopLoss, takeProfit, confidence,
            "breakout signal"⟩

/-- generateTrendFollowingSignal: updates the trend history, then requires
minConsecutive identical readings, price on the favorable side of the SMA,
volume at or above the multiplier, price within the configured distance of the
recent extreme, and matching price structure; produces a 0.65-confidence
signal.  An RSI failure inside the accepted branch is caught by the inner
try/catch after the trend history was already updated. -/
def generateTrendFollowingSignal (cfg : BreakoutConfig) (gcfg : GlobalConfig)
    (st : StrategyState) (symbol : String) (history : List PriceData)
    (currentPrice : ℚ) (trend : Trend) (priceStructure : PriceStructure)
    (avgVolume : ℚ) : Option Signal × StrategyState :=
  let st1 := updateTrendHistory st symbol trend
  let minConsecutive := gcfg.trendFollowingMinConsecutiveTrends
  let smaPeriod := gcfg.trendFollowingSmaPeriod
  let maxDistanceFromHigh := gcfg.trendFollowingMaxDistanceFromHigh / 100
  if history.length < smaPeriod then (none, st1)
  else
    let closePrices := history.map PriceData.close
    let sma := Indicators.smaOf closePrices smaPeriod
    let currentVolume := ((history.getLast?).map PriceData.volume).getD 0
    let volumeFrac := currentVolume / avgVolume
    if volumeFrac < cfg.volumeMultiplier then (none, st1)
    else
      let recentPrices := sliceNeg history smaPeriod
      let recentHigh := maxQ (recentPrices.map PriceData.high)
      let recentLow := minQ (recentPrices.map PriceData.low)
      if hasConsecutiveTrend st1 symbol .DOWNTREND minConsecutive ∧
         currentPrice < sma ∧
         (recentHigh - currentPrice) / recentHigh ≤ maxDistanceFromHigh ∧
         priceStructure = .LOWER_LOWS then
        let entryPrice := currentPrice
        let stopLoss := entryPrice * (1 + getTrailingStopPercent symbol / 100)
        match IndicatorsB.calculateRSI history 14 with
        | .error _ => (none, st1)
        | .ok _rsi =>
          let takeProfit := cfg.takeProfitPercent.map fun tp =>
            entryPrice * (1 - tp / 100)
          (some ⟨symbol, OrderSide.SELL, entryPrice, stopLoss, takeProfit, 65/100,
            "trend following short"⟩, st1)
      else if hasConsecutiveTrend st1 symbol .UPTREND minConsecutive ∧
         sma < currentPrice ∧
         (currentPrice - recentLow) / recentLow ≤ maxDistanceFromHigh ∧
         priceStructure = .HIGHER_HIGHS then
        let entryPrice := currentPrice
        let stopLoss := entryPrice * (1 - getTrailingStopPercent symbol / 100)
        match IndicatorsB.calculateRSI history 14 with
        | .error _ => (none, st1)
        | .ok _rsi =>
          let takeProfit := cfg.takeProfitPercent.map fun tp =>
            entryPrice * (1 + tp / 100)
          (some ⟨symbol, OrderSide.BUY, entryPrice, stopLoss, takeProfit, 65/100,
            "trend following long"⟩, st1)
      else (none, st1)

/-- Increment of the per-symbol scan counter taken on the no-signal exit. -/
def bumpScanCount (st : StrategyState) (symbol : String) : StrategyState :=
  { st with scanCounts := Function.update st.scanCounts symbol (st.scanCounts symbol + 1) }

/-- The try-block of generateSignal (everything after the cooldown gate).  A
thrown InsufficientDataError surfaces here as an Except.error and the
surrounding catch turns it into a null result; state mutations performed
before the throw (the trend-history update inside the trend-following
sub-strategy) persist, exactly as for the source maps. -/
def generateSignalCore (cfg : BreakoutConfig) (gcfg : GlobalConfig)
    (st : StrategyState) (symbol : String) : Option Signal × StrategyState :=
  let history := st.priceHistory symbol
  match Indicators.calculateResistance history cfg.lookbackPeriod with
  | .error _ => (none, st)
  | .ok resistance =>
    match Indicators.calculateSupport history cfg.lookbackPeriod with
    | .error _ => (none, st)
    | .ok support =>
      let currentPrice := lastClose history
      if ¬ HealthCheck.validateSupportResistance support resistance currentPrice then
        (none, st)
      else
        match Indicators.calculateAverageVolume history (min 20 history.length) with
        | .error _ => (none, st)
        | .ok avgVolume =>
          match IndicatorsB.detectTrend history 20 50 with
          | .error _ => (none, st)
          | .ok trend =>
            let priceStructure := Indicators.detectPriceStructure history 10
            match scanCandles cfg history resistance support avgVolume currentPrice
                (scanIndices history.length) with
            | some (_breakoutCandle, breakoutType) =>
              (applyFilters cfg symbol history trend priceStructure breakoutType
                currentPrice, st)
            | none =>
              if gcfg.enableTrendFollowing then
                match generateTrendFollowingSignal cfg gcfg st symbol history
                    currentPrice trend priceStructure avgVolume with
                | (some s, st1) => (some s, st1)
                | (none, st1) => (none, bumpScanCount st1 symbol)
              else (none, bumpScanCount st symbol)

/-- BreakoutStrategy.generateSignal: history-length guard, history validation,
active-signal guard, stop-loss cooldown gate (a still-running cooldown blocks
with no state change, an expired entry is deleted), then the try-block. -/
def generateSignal (cfg : BreakoutConfig) (gcfg : GlobalConfig)
    (st : StrategyState) (symbol : String) (now : Int) :
    Option Signal × StrategyState :=
  let history := st.priceHistory symbol
  if history.length < cfg.lookbackPeriod then (none, st)
  else if ¬ HealthCheck.validatePriceHistory history cfg.lookbackPeriod then (none, st)
  else if (st.activeSignals symbol).isSome then (none, st)
  else
    match st.stopLossCooldowns symbol with
    | some cooldownTimestamp =>
      if cooldownTimestamp ≠ 0 then
        if now - cooldownTimestamp < stopLossCooldownMs then (none, st)
        else
          generateSignalCore cfg gcfg
            { st with
              stopLossCooldowns :=
                Function.update st.stopLossCooldowns symbol none }
            symbol
      else generateSignalCore cfg gcfg st symbol
    | none => generateSignalCore cfg gcfg st symbol

/-- Result of executeSignal or closePosition: the new state, the notifications
pushed to the Telegram sink, and the number of placeOrder calls issued to the
exchange client. -/
structure CallResult where
  state : StrategyState
  events : List Event
  orders : Nat

/-- The cooldown re-check at the top of executeSignal (a truthy stored
timestamp within the window blocks; an expired entry is NOT deleted here). -/
def execCooldownBlocked (st : StrategyState) (symbol : String) (now : Int) : Bool :=
  match st.stopLossCooldowns symbol with
  | some t => decide (t ≠ 0) && decide (now - t < stopLossCooldownMs)
  | none => false

/-- BreakoutStrategy.executeSignal.  External outcomes are injected:
positionsRes is the result of client.getPositions and placeOrderOk tells
whether client.placeOrder succeeds; hasTelegram tells whether the optional
notification service is configured.  A thrown external call lands in the catch
block, which only emits an error notification. -/
def executeSignal (cfg : BreakoutConfig) (st : StrategyState) (signal : Signal)
    (customQuantity : Option ℚ) (now : Int)
    (positionsRes : Except Unit (List Position)) (placeOrderOk : Bool)
    (hasTelegram : Bool) : CallResult :=
  if (st.activeSignals signal.symbol).isSome then ⟨st, [], 0⟩
  else if execCooldownBlocked st signal.symbol now then ⟨st, [], 0⟩
  else
    match positionsRes with
    | .error _ =>
      ⟨st, if hasTelegram then [.errorNote "executeSignal"] else [], 0⟩
    | .ok existingPositions =>
      match existingPositions.find? (fun p => p.symbol == signal.symbol) with
      | some _ =>
        ⟨{ st with
             activeSignals :=
               Function.update st.activeSignals signal.symbol (some signal) },
         [], 0⟩
      | none =>
        let quantity :=
          match customQuantity with
          | some q => q
          | none => cfg.positionSize / signal.entryPrice
        let entryPrice := roundToIncrement signal.entryPrice signal.symbol
        let _stopLossPrice := roundToIncrement signal.stopLoss signal.symbol
        let _order := (signal.symbol, signal.side, entryPrice, quantity)
        if placeOrderOk then
          let st1 := { st with
            activeSignals := Function.update st.activeSignals signal.symbol (some signal),
            trailingStops := Function.update st.trailingStops signal.symbol
              (some ⟨signal.entryPrice, signal.stopLoss⟩) }
          ⟨st1, if hasTelegram then [.positionOpened signal.symbol] else [], 1⟩
        else
          ⟨st, if hasTelegram then [.errorNote "executeSignal"] else [], 1⟩

/-- The duplicate-close guard at the top of closePosition: a truthy recent
close timestamp within the 2-minute window makes the call a no-op. -/
def closeBlocked (st : StrategyState) (symbol : String) (now : Int) : Bool :=
  match st.recentlyClosedPositions symbol with
  | some recentClose =>
    decide (recentClose ≠ 0) && decide (now - recentClose < closePositionCooldownMs)
  | none => false

/-- BreakoutStrategy.closePosition (src/unnamed/part_003): duplicate-close
guard, position lookup, reduce-only order at the rounded mark price, then
recently-closed bookkeeping, close notification, cleanup of the active signal
and trailing stop, and the stop-loss cooldown exactly when the reason string
contains the word stop.  A placeOrder failure lands in the catch block, which
only logs (no notification, no state change). -/
def closePosition (st : StrategyState) (symbol : String) (reason : String)
    (now : Int) (positionsRes : Except Unit (List Position)) (placeOrderOk : Bool)
    (hasTelegram : Bool) : CallResult :=
  if closeBlocked st symbol now then ⟨st, [], 0⟩
  else
    match positionsRes with
    | .error _ => ⟨st, [], 0⟩
    | .ok positions =>
      match positions.find? (fun p => p.symbol == symbol) with
      | none => ⟨st, [], 0⟩
      | some position =>
        let _closeSide :=
          if position.side = OrderSide.BUY then OrderSide.SELL else OrderSide.BUY
        let _closePrice := roundToIncrement position.markPrice symbol
        if placeOrderOk then
          let st1 := { st with
            recentlyClosedPositions :=
              Function.update st.recentlyClosedPositions symbol (some now) }
          let events := if hasTelegram then [Event.positionClosed symbol reason] else []
          let st2 := { st1 with
            activeSignals := Function.update st1.activeSignals symbol none,
            trailingStops := Function.update st1.trailingStops symbol none }
          let st3 :=
            if reasonMentionsStop reason then
              { st2 with
                stopLossCooldowns :=
                  Function.update st2.stopLossCooldowns symbol (some now) }
            else st2
          ⟨st3, events, 1⟩
        else ⟨st, [], 1⟩

/-- The long-side trailing-stop update of updateTrailingStops (src/unnamed/
part_003 lines 777-783): when the mark price exceeds the tracked high, raise
the high to the mark price and recompute the stop 5 percent below it;
otherwise leave the tracker untouched. -/
def updateTrailingLong (symbol : String) (t : TrailingStop) (markPrice : ℚ) :
    TrailingStop :=
  if t.high < markPrice then
    ⟨markPrice, markPrice * (1 - getTrailingStopPercent symbol / 100)⟩
  else t

/-- The stop-hit check that follows the long-side update: the position is
closed with reason Trailing stop hit when the mark price is at or below the
tracked stop. -/
def longStopHit (t : TrailingStop) (markPrice : ℚ) : Bool :=
  decide (markPrice ≤ t.stop)

/-- The tracker initialised for an orphan long position in updateTrailingStops
(stop 5 percent below the entry price). -/
def orphanLongTracker (symbol : String) (entryPrice : ℚ) : TrailingStop :=
  ⟨entryPrice, entryPrice * (1 - getTrailingStopPercent symbol / 100)⟩

end Strategy

/-- A history of length exactly lookbackPeriod makes calculateResistance fail. -/
theorem resistance_error_of_short (prices : List PriceData) (lb : Nat)
    (h : prices.length < lb + 1) :
    Indicators.calculateResistance prices lb = .error "Insufficient data" := by
  unfold Indicators.calculateResistance
  rw [if_pos h]

theorem core_none_of_short (cfg : Strategy.BreakoutConfig) (gcfg : Strategy.GlobalConfig)
    (st : Strategy.StrategyState) (symbol : String)
    (h : (st.priceHistory symbol).length < cfg.lookbackPeriod + 1) :
    (Strategy.generateSignalCore cfg gcfg st symbol).1 = none := by
  simp only [Strategy.generateSignalCore]
  rw [resistance_error_of_short _ _ h]

/-- Claim C10: when the stored price history of a symbol has length exactly
lookbackPeriod, generateSignal always returns none - the support/resistance
computation needs lookbackPeriod + 1 candles, its insufficient-data error is
caught, and every other path of the function also yields a null signal. -/
theorem c10_generate_signal_insufficient_history_none
    (cfg : Strategy.BreakoutConfig) (gcfg : Strategy.GlobalConfig)
    (st : Strategy.StrategyState) (symbol : String) (now : Int)
    (h : (st.priceHistory symbol).length = cfg.lookbackPeriod) :
    (Strategy.generateSignal cfg gcfg st symbol now).1 = none := by
  have hshort : ∀ st' : Strategy.StrategyState,
      st'.priceHistory symbol = st.priceHistory symbol →
      (Strategy.generateSignalCore cfg gcfg st' symbol).1 = none := by
    intro st' hh
    exact core_none_of_short cfg gcfg st' symbol (by rw [hh]; omega)
  simp only [Strategy.generateSignal]
  repeat' split
  any_goals rfl
  all_goals exact hshort _ rfl

/-- The trend-following sub-strategy never touches the cooldown map. -/
theorem trendFollowing_preserves_cooldowns (cfg : Strategy.BreakoutConfig)
    (gcfg : Strategy.GlobalConfig) (st : Strategy.StrategyState) (symbol : String)
    (history : List PriceData) (currentPrice : ℚ) (trend : Trend)
    (priceStructure : PriceStructure) (avgVolume : ℚ) :
    (Strategy.generateTrendFollowingSignal cfg gcfg st symbol history currentPrice
        trend priceStructure avgVolume).2.stopLossCooldowns = st.stopLossCooldowns := by
  simp only [Strategy.generateTrendFollowingSignal]
  repeat' split
  all_goals rfl

/-- The try-block of generateSignal never touches the cooldown map. -/
theorem core_preserves_cooldowns (cfg : Strategy.BreakoutConfig)
    (gcfg : Strategy.GlobalConfig) (st : Strategy.StrategyState) (symbol : String) :
    (Strategy.generateSignalCore cfg gcfg st symbol).2.stopLossCooldowns =
      st.stopLossCooldowns := by
  simp only [Strategy.generateSignalCore]
  repeat' split
  all_goals first
    | rfl
    | (rename_i st1 heq
       exact (congrArg (fun p => p.2.stopLossCooldowns) heq).symm.trans
         (trendFollowing_preserves_cooldowns _ _ _ _ _ _ _ _ _))

/-- Claim C1 (amended): with a cooldown stamped at T for a symbol, every
generateSignal call before T + 15 min returns none and leaves the state
untouched; at or after T + 15 min the call whose earlier guards pass
(sufficient valid history, no active signal) reaches the cooldown gate,
clears the expired entry, and proceeds unblocked.  If an earlier guard fires
first, the call still returns none for that reason but the expired entry is
left in place - which is the correction to the claim, witnessed by the
counterexample below. -/
theorem c1_cooldown_gate (cfg : Strategy.BreakoutConfig) (gcfg : Strategy.GlobalConfig)
    (st : Strategy.StrategyState) (symbol : String) (now T : Int)
    (hT : st.stopLossCooldowns symbol = some T) (hT0 : T ≠ 0) :
    (now - T < Strategy.stopLossCooldownMs →
      Strategy.generateSignal cfg gcfg st symbol now = (none, st)) ∧
    (Strategy.stopLossCooldownMs ≤ now - T →
      cfg.lookbackPeriod ≤ (st.priceHistory symbol).length →
      HealthCheck.validatePriceHistory (st.priceHistory symbol) cfg.lookbackPeriod = true →
      st.activeSignals symbol = none →
      (Strategy.generateSignal cfg gcfg st symbol now).2.stopLossCooldowns symbol = none) := by
  constructor
  · intro hlt
    simp only [Strategy.generateSignal]
    repeat' split
    any_goals rfl
    all_goals simp_all [Strategy.stopLossCooldownMs]
  · intro hge hlen hval hact
    simp only [Strategy.generateSignal]
    repeat' split
    all_goals first
      | (rw [core_preserves_cooldowns]; simp [Function.update])
      | (simp_all [Strategy.stopLossCooldownMs]; omega)
      | simp_all [Strategy.stopLossCooldownMs]

namespace Ex

/-- Candle constructor for concrete examples (timestamp 0). -/
def mkC (h l c v : ℚ) : PriceData := ⟨h, l, c, v, 0⟩

/-- A small valid 3-candle history. -/
def hist3 : List PriceData := [mkC 2 1 2 1, mkC 2 1 2 1, mkC 2 1 2 1]

/-- A 2-candle history (length equal to the example lookback period). -/
def hist2 : List PriceData := [mkC 2 1 2 1, mkC 2 1 2 1]

/-- Example strategy config: lookback 2, multiplier 1.5, stop 1.5, size 10. -/
def cfg : Strategy.BreakoutConfig := ⟨2, 3/2, 3/2, 10, true, 1/1000, none⟩

/-- Example global config with trend following disabled. -/
def gcfg : Strategy.GlobalConfig := ⟨false, 20, 3, 2⟩

/-- Empty strategy state. -/
def st0 : Strategy.StrategyState :=
  ⟨fun _ => [], fun _ => none, fun _ => none, fun _ => [], fun _ => none,
   fun _ => 0, fun _ => none⟩

/-- State with a valid 3-candle BTC history and a BTC cooldown stamped 1000. -/
def stW : Strategy.StrategyState :=
  ⟨fun s => if s = "BTC" then hist3 else [],
   fun _ => none, fun _ => none, fun _ => [],
   fun s => if s = "BTC" then some 1000 else none,
   fun _ => 0, fun _ => none⟩

/-- State with an empty BTC history and a BTC cooldown stamped 1000. -/
def stEmptyCD : Strategy.StrategyState :=
  ⟨fun _ => [], fun _ => none, fun _ => none, fun _ => [],
   fun s => if s = "BTC" then some 1000 else none,
   fun _ => 0, fun _ => none⟩

/-- State with a 2-candle BTC history only. -/
def stShort : Strategy.StrategyState :=
  ⟨fun s => if s = "BTC" then hist2 else [],
   fun _ => none, fun _ => none, fun _ => [], fun _ => none,
   fun _ => 0, fun _ => none⟩

/-- Highs 10, 5, 3 with a constant close: the resistance window example. -/
def ex3 : List PriceData := [mkC 10 1 2 1, mkC 5 1 2 1, mkC 3 1 2 1]

/-- An all-time-high candle to append to ex3. -/
def exC : PriceData := mkC 100 1 2 1

/-- 16 flat candles whose closes fall once (10 to 9) and then rise by 1 for
14 consecutive changes: the trailing 14 changes are all non-negative but the
whole history contains one loss. -/
def ex16 : List PriceData :=
  [mkC 10 10 10 1, mkC 9 9 9 1, mkC 10 10 10 1, mkC 11 11 11 1, mkC 12 12 12 1,
   mkC 13 13 13 1, mkC 14 14 14 1, mkC 15 15 15 1, mkC 16 16 16 1, mkC 17 17 17 1,
   mkC 18 18 18 1, mkC 19 19 19 1, mkC 20 20 20 1, mkC 21 21 21 1, mkC 22 22 22 1,
   mkC 23 23 23 1]

end Ex

/-- Counterexample to claim C1 as stated: a symbol with an empty history and
an expired cooldown (now - T = 900000 ms, exactly the 15-minute window) gets
none from generateSignal, but the expired cooldown entry is NOT cleared,
because the insufficient-history guard returns before the cooldown gate. -/
theorem c1_expired_cooldown_left_in_place :
    Strategy.stopLossCooldownMs ≤ (901000 : Int) - 1000 ∧
    (Strategy.generateSignal Ex.cfg Ex.gcfg Ex.stEmptyCD "BTC" 901000).1 = none ∧
    (Strategy.generateSignal Ex.cfg Ex.gcfg Ex.stEmptyCD "BTC" 901000).2.stopLossCooldowns
      "BTC" = some 1000 := by
  refine ⟨by decide, ?_, ?_⟩ <;> with_unfolding_all rfl

theorem c1_cooldown_gate_witness :
    Strategy.generateSignal Ex.cfg Ex.gcfg Ex.stW "BTC" 1500 = (none, Ex.stW) ∧
    (Strategy.generateSignal Ex.cfg Ex.gcfg Ex.stW "BTC" 901000).2.stopLossCooldowns
      "BTC" = none :=
  ⟨(c1_cooldown_gate Ex.cfg Ex.gcfg Ex.stW "BTC" 1500 1000 rfl (by decide)).1 (by decide),
   (c1_cooldown_gate Ex.cfg Ex.gcfg Ex.stW "BTC" 901000 1000 rfl (by decide)).2
     (by decide) (by decide) (by with_unfolding_all rfl) rfl⟩

theorem c10_generate_signal_insufficient_history_none_witness :
    (Ex.stShort.priceHistory "BTC").length = Ex.cfg.lookbackPeriod ∧
    (Strategy.generateSignal Ex.cfg Ex.gcfg Ex.stShort "BTC" 0).1 = none :=
  ⟨by decide,
   c10_generate_signal_insufficient_history_none Ex.cfg Ex.gcfg Ex.stShort "BTC" 0 (by decide)⟩

/-- One long tick never lowers the stop and preserves the tracker invariant
stop ≤ high × (1 - pct/100). -/
theorem updateTrailingLong_step (sym : String) (t : Strategy.TrailingStop) (m : ℚ)
    (h : t.stop ≤ t.high * (1 - Strategy.getTrailingStopPercent sym / 100)) :
    t.stop ≤ (Strategy.updateTrailingLong sym t m).stop ∧
    (Strategy.updateTrailingLong sym t m).stop ≤
      (Strategy.updateTrailingLong sym t m).high *
        (1 - Strategy.getTrailingStopPercent sym / 100) := by
  unfold Strategy.updateTrailingLong
  split
  · rename_i hm
    simp only [Strategy.getTrailingStopPercent] at h ⊢
    constructor
    · calc t.stop ≤ t.high * (1 - 5 / 100) := h
        _ ≤ m * (1 - 5 / 100) := by
            apply mul_le_mul_of_nonneg_right hm.le
            norm_num
    · exact le_refl _
  · exact ⟨le_refl _, h⟩

/-- List.scanl always starts with its initial accumulator. -/
theorem scanl_head_eq (f : α → β → α) (a : α) (ms : List β) :
    ∃ rest, List.scanl f a ms = a :: rest := by
  cases ms <;> exact ⟨_, rfl⟩

/-- Claim C2: for a long position tracker satisfying the reachable-state
invariant stop ≤ high × (1 - pct/100) (which holds at creation, where
stop = entry × (1 - pct/100) and high = entry), the tracked stop is
non-decreasing along every sequence of mark prices processed by the long-side
update of updateTrailingStops: the stop is recomputed as
extremum × (1 - pct/100) only when the mark price strictly exceeds the
tracked extremum. -/
theorem c2_trailing_stop_monotone (sym : String) (t0 : Strategy.TrailingStop)
    (h : t0.stop ≤ t0.high * (1 - Strategy.getTrailingStopPercent sym / 100))
    (ms : List ℚ) :
    List.Chain' (· ≤ ·)
      ((List.scanl (Strategy.updateTrailingLong sym) t0 ms).map Strategy.TrailingStop.stop) := by
  induction ms generalizing t0 with
  | nil => simp [List.scanl]
  | cons m ms ih =>
    have step := updateTrailingLong_step sym t0 m h
    have ihm := ih (Strategy.updateTrailingLong sym t0 m) step.2
    obtain ⟨rest, hrest⟩ :=
      scanl_head_eq (Strategy.updateTrailingLong sym)
        (Strategy.updateTrailingLong sym t0 m) ms
    simp only [List.scanl, List.map_cons]
    rw [hrest] at ihm ⊢
    simp only [List.map_cons] at ihm ⊢
    exact List.chain'_cons.mpr ⟨step.1, ihm⟩

theorem c2_trailing_stop_monotone_witness :
    (100 : ℚ) * (1 - Strategy.getTrailingStopPercent "ETH" / 100) = 95 ∧
    List.Chain' (· ≤ ·)
      ((List.scanl (Strategy.updateTrailingLong "ETH") ⟨100, 95⟩ [110, 104]).map
        Strategy.TrailingStop.stop) :=
  ⟨by with_unfolding_all rfl,
   c2_trailing_stop_monotone "ETH" ⟨100, 95⟩ (by with_unfolding_all decide) [110, 104]⟩

/-- Claim C3 (amended): on a successful close, closePosition stamps the
per-symbol cooldown exactly when the reason string contains the word stop.
The internal reasons behave as the claim says - the trailing-stop reason
contains it, the take-profit reason does not - but a caller-supplied manual
reason that mentions stop also starts the cooldown, which is the correction
witnessed by the counterexample below. -/
theorem c3_cooldown_iff_reason_mentions_stop
    (st : Strategy.StrategyState) (symbol reason : String) (now : Int)
    (ps : List Strategy.Position) (tel : Bool)
    (hnb : Strategy.closeBlocked st symbol now = false)
    (p : Strategy.Position) (hfind : ps.find? (fun q => q.symbol == symbol) = some p) :
    (Strategy.closePosition st symbol reason now (.ok ps) true tel).state.stopLossCooldowns
        symbol =
      (if reasonMentionsStop reason then some now else st.stopLossCooldowns symbol) := by
  simp only [Strategy.closePosition, hnb, hfind, Bool.false_eq_true, if_false]
  split
  · split
    · simp [Function.update]
    · rfl
  · rename_i hc
    exact absurd trivial hc

/-- Counterexample to claim C3 as stated: a manual close whose free-text
reason is Manual stop is not a stop-loss exit, yet it starts the cooldown,
because the code keys on the substring stop rather than on the exit kind. -/
theorem c3_counterexample_manual_stop_reason :
    (Strategy.closePosition Ex.st0 "BTC" "Manual stop" 5
        (.ok [⟨"BTC", OrderSide.BUY, 1, 100, 101, 1⟩]) true true).state.stopLossCooldowns
        "BTC" = some 5 ∧
    reasonMentionsStop "Trailing stop hit" = true ∧
    reasonMentionsStop "Take profit target reached" = false := by
  refine ⟨?_, by decide, by decide⟩
  with_unfolding_all rfl

theorem c3_cooldown_iff_witness :
    (Strategy.closePosition Ex.st0 "BTC" "Trailing stop hit" 7
        (.ok [⟨"BTC", OrderSide.BUY, 1, 100, 101, 1⟩]) true true).state.stopLossCooldowns
        "BTC" = some 7 ∧
    (Strategy.closePosition Ex.st0 "BTC" "Take profit target reached" 7
        (.ok [⟨"BTC", OrderSide.BUY, 1, 100, 101, 1⟩]) true true).state.stopLossCooldowns
        "BTC" = none := by
  constructor
  · rw [c3_cooldown_iff_reason_mentions_stop Ex.st0 "BTC" "Trailing stop hit" 7 _ true
      (by decide) ⟨"BTC", OrderSide.BUY, 1, 100, 101, 1⟩ (by with_unfolding_all rfl)]
    decide
  · rw [c3_cooldown_iff_reason_mentions_stop Ex.st0 "BTC" "Take profit target reached" 7 _ true
      (by decide) ⟨"BTC", OrderSide.BUY, 1, 100, 101, 1⟩ (by with_unfolding_all rfl)]
    decide

/-- A successful close stamps the recently-closed map with the call time. -/
theorem closePosition_sets_recentlyClosed
    (st : Strategy.StrategyState) (symbol reason : String) (now : Int)
    (ps : List Strategy.Position) (tel : Bool)
    (hnb : Strategy.closeBlocked st symbol now = false)
    (p : Strategy.Position) (hfind : ps.find? (fun q => q.symbol == symbol) = some p) :
    (Strategy.closePosition st symbol reason now (.ok ps) true tel).state.recentlyClosedPositions
        symbol = some now ∧
    (Strategy.closePosition st symbol reason now (.ok ps) true tel).orders = 1 := by
  simp only [Strategy.closePosition, hnb, hfind, Bool.false_eq_true, if_false]
  split
  · split
    · simp [Function.update]
    · simp [Function.update]
  · rename_i hc
    exact absurd trivial hc

/-- Claim C4: closePosition is idempotent under the 2-minute post-close
window: after a first successful close at t1, any second call at t2 with
t2 - t1 under 2 minutes issues no order, emits nothing, and leaves the state
exactly as the first call left it, so the pair issues exactly one reduce-only
order in total. -/
theorem c4_close_position_idempotent
    (st : Strategy.StrategyState) (symbol reason reason2 : String) (t1 t2 : Int)
    (ps : List Strategy.Position) (tel : Bool)
    (hrc : st.recentlyClosedPositions symbol = none)
    (p : Strategy.Position) (hfind : ps.find? (fun q => q.symbol == symbol) = some p)
    (ht1 : t1 ≠ 0) (hwin : t2 - t1 < Strategy.closePositionCooldownMs)
    (positionsRes2 : Except Unit (List Strategy.Position)) (placeOk2 tel2 : Bool) :
    (Strategy.closePosition st symbol reason t1 (.ok ps) true tel).orders = 1 ∧
    Strategy.closePosition
        (Strategy.closePosition st symbol reason t1 (.ok ps) true tel).state
        symbol reason2 t2 positionsRes2 placeOk2 tel2 =
      ⟨(Strategy.closePosition st symbol reason t1 (.ok ps) true tel).state, [], 0⟩ := by
  have hnb : Strategy.closeBlocked st symbol t1 = false := by
    simp [Strategy.closeBlocked, hrc]
  have h1 := closePosition_sets_recentlyClosed st symbol reason t1 ps tel hnb p hfind
  refine ⟨h1.2, ?_⟩
  obtain ⟨hrc1, -⟩ := h1
  generalize hgen :
    (Strategy.closePosition st symbol reason t1 (.ok ps) true tel).state = s1 at hrc1 ⊢
  have hb : Strategy.closeBlocked s1 symbol t2 = true := by
    simp [Strategy.closeBlocked, hrc1, ht1, hwin]
  simp [Strategy.closePosition, hb]

theorem c4_close_position_idempotent_witness :
    (Strategy.closePosition Ex.st0 "BTC" "Trailing stop hit" 1000
        (.ok [⟨"BTC", OrderSide.BUY, 1, 100, 101, 1⟩]) true true).orders = 1 ∧
    Strategy.closePosition
        (Strategy.closePosition Ex.st0 "BTC" "Trailing stop hit" 1000
          (.ok [⟨"BTC", OrderSide.BUY, 1, 100, 101, 1⟩]) true true).state
        "BTC" "Trailing stop hit" 61000
        (.ok [⟨"BTC", OrderSide.BUY, 1, 100, 101, 1⟩]) true true =
      ⟨(Strategy.closePosition Ex.st0 "BTC" "Trailing stop hit" 1000
          (.ok [⟨"BTC", OrderSide.BUY, 1, 100, 101, 1⟩]) true true).state, [], 0⟩ :=
  c4_close_position_idempotent Ex.st0 "BTC" "Trailing stop hit" "Trailing stop hit"
    1000 61000 _ true rfl ⟨"BTC", OrderSide.BUY, 1, 100, 101, 1⟩
    (by with_unfolding_all rfl) (by decide) (by decide)
    (.ok [⟨"BTC", OrderSide.BUY, 1, 100, 101, 1⟩]) true true

/-- Claim C5: executeSignal is atomic on failure.  If getPositions fails, or
if order placement fails (with no pre-existing position), the resulting state
is exactly the input state - no active-signal, trailing-stop or cooldown
entry is touched - and an error notification is emitted whenever the
notification service is configured. -/
theorem c5_execute_signal_atomic_on_failure
    (cfg : Strategy.BreakoutConfig) (st : Strategy.StrategyState)
    (signal : Strategy.Signal) (customQuantity : Option ℚ) (now : Int) (tel : Bool)
    (hact : st.activeSignals signal.symbol = none)
    (hcd : Strategy.execCooldownBlocked st signal.symbol now = false) :
    (Strategy.executeSignal cfg st signal customQuantity now (.error ()) true tel =
      ⟨st, if tel then [.errorNote "executeSignal"] else [], 0⟩) ∧
    (∀ ps : List Strategy.Position,
      ps.find? (fun p => p.symbol == signal.symbol) = none →
      Strategy.executeSignal cfg st signal customQuantity now (.ok ps) false tel =
        ⟨st, if tel then [.errorNote "executeSignal"] else [], 1⟩) := by
  constructor
  · simp [Strategy.executeSignal, hact, hcd]
  · intro ps hps
    simp [Strategy.executeSignal, hact, hcd, hps]

theorem c5_execute_signal_atomic_witness :
    (Strategy.executeSignal Ex.cfg Ex.st0
        ⟨"BTC", OrderSide.BUY, 100, 95, none, 7/10, "x"⟩ none 0 (.error ()) true true =
      ⟨Ex.st0, [.errorNote "executeSignal"], 0⟩) ∧
    (Strategy.executeSignal Ex.cfg Ex.st0
        ⟨"BTC", OrderSide.BUY, 100, 95, none, 7/10, "x"⟩ none 0 (.ok []) false true =
      ⟨Ex.st0, [.errorNote "executeSignal"], 1⟩) := by
  have h := c5_execute_signal_atomic_on_failure Ex.cfg Ex.st0
    ⟨"BTC", OrderSide.BUY, 100, 95, none, 7/10, "x"⟩ none 0 true rfl (by decide)
  exact ⟨h.1, h.2 [] rfl⟩

/-- A left fold of max is an upper bound of its seed and of all elements. -/
theorem le_foldl_max (a : ℚ) (as : List ℚ) :
    a ≤ as.foldl max a ∧ ∀ x ∈ as, x ≤ as.foldl max a := by
  induction as generalizing a with
  | nil => simp
  | cons b bs ih =>
    obtain ⟨h1, h2⟩ := ih (max a b)
    refine ⟨le_trans (le_max_left a b) h1, ?_⟩
    intro x hx
    rcases List.mem_cons.mp hx with rfl | hx
    · exact le_trans (le_max_right a _) h1
    · exact h2 x hx

/-- A left fold of max is the seed or one of the elements. -/
theorem foldl_max_mem (a : ℚ) (as : List ℚ) :
    as.foldl max a = a ∨ as.foldl max a ∈ as := by
  induction as generalizing a with
  | nil => left; rfl
  | cons b bs ih =>
    rcases ih (max a b) with h | h
    · rcases max_choice a b with hm | hm
      · left; rw [List.foldl_cons, h, hm]
      · right; rw [List.foldl_cons, h, hm]; exact List.mem_cons_self b bs
    · right; exact List.mem_cons_of_mem b h

/-- Decimal.max of a non-empty list is a member and an upper bound. -/
theorem maxQ_spec (l : List ℚ) (hne : l ≠ []) :
    maxQ l ∈ l ∧ ∀ x ∈ l, x ≤ maxQ l := by
  match l with
  | [] => exact absurd rfl hne
  | a :: as =>
    simp only [maxQ]
    constructor
    · rcases foldl_max_mem a as with h | h
      · rw [h]; exact List.mem_cons_self a as
      · exact List.mem_cons_of_mem a h
    · intro x hx
      rcases List.mem_cons.mp hx with rfl | hx
      · exact (le_foldl_max x as).1
      · exact (le_foldl_max a as).2 x hx

/-- The support/resistance window of an extended history drops the appended
candle entirely. -/
theorem srWindow_append (h : List PriceData) (c : PriceData) (lb : Nat)
    (hlen : lb ≤ h.length) :
    Indicators.srWindow (h ++ [c]) lb = h.drop (h.length - lb) := by
  unfold Indicators.srWindow
  rw [List.length_append]
  simp only [List.length_singleton]
  rw [show h.length + 1 - 1 = h.length by omega]
  rw [List.take_left]
  congr 1
  omega

/-- Claim C7 (amended): calculateResistance computes the maximum high over
the lookback window that excludes the current candle (the returned value is
an upper bound of the window highs and is attained in the window), and the
value computed after appending a new candle never depends on that candle -
the appended all-time-high never enters the computation.  The resistance
value can still change when a candle is appended, because the window slides
forward by one; that is the correction, witnessed by the counterexample. -/
theorem c7_resistance_excludes_current (h : List PriceData) (lb : Nat)
    (c c' : PriceData) (hlb : 1 ≤ lb) (hlen : lb + 1 ≤ h.length) :
    Indicators.calculateResistance (h ++ [c]) lb =
      Indicators.calculateResistance (h ++ [c']) lb ∧
    ∃ m, Indicators.calculateResistance h lb = .ok m ∧
      (∀ p ∈ Indicators.srWindow h lb, p.high ≤ m) ∧
      (∃ p ∈ Indicators.srWindow h lb, m = p.high) := by
  constructor
  · unfold Indicators.calculateResistance
    rw [if_neg (by simp; omega), if_neg (by simp; omega)]
    rw [srWindow_append h c lb (by omega), srWindow_append h c' lb (by omega)]
  · refine ⟨maxQ ((Indicators.srWindow h lb).map PriceData.high), ?_, ?_, ?_⟩
    · unfold Indicators.calculateResistance
      rw [if_neg (by omega)]
    · intro p hp
      have hmem : p.high ∈ (Indicators.srWindow h lb).map PriceData.high :=
        List.mem_map_of_mem PriceData.high hp
      have hne : (Indicators.srWindow h lb).map PriceData.high ≠ [] := by
        intro hcon
        have := congrArg List.length hcon
        simp [Indicators.srWindow] at this
        omega
      exact (maxQ_spec _ hne).2 _ hmem
    · have hne : (Indicators.srWindow h lb).map PriceData.high ≠ [] := by
        intro hcon
        have := congrArg List.length hcon
        simp [Indicators.srWindow] at this
        omega
      have hmem := (maxQ_spec _ hne).1
      obtain ⟨p, hp, hph⟩ := List.mem_map.mp hmem
      exact ⟨p, hp, hph.symm⟩

/-- Counterexample to claim C7 as stated: highs 10, 5, 3 with lookback 2
give resistance 10; appending a candle with high 100 (above every prior high)
changes the resistance to 5, because the two-candle window slides to exclude
the 10-high candle - so appending an all-time-high candle does change the
returned value. -/
theorem c7_resistance_window_shift_counterexample :
    ((Ex.ex3.map PriceData.high).all fun x => decide (x < 100)) = true ∧
    Indicators.calculateResistance Ex.ex3 2 = .ok 10 ∧
    Indicators.calculateResistance (Ex.ex3 ++ [Ex.exC]) 2 = .ok 5 := by
  refine ⟨by with_unfolding_all decide, ?_, ?_⟩ <;> with_unfolding_all rfl

theorem c7_resistance_excludes_current_witness :
    Indicators.calculateResistance (Ex.ex3 ++ [Ex.exC]) 2 =
      Indicators.calculateResistance (Ex.ex3 ++ [Ex.mkC 200 1 2 1]) 2 ∧
    ∃ m, Indicators.calculateResistance Ex.ex3 2 = .ok m ∧
      (∀ p ∈ Indicators.srWindow Ex.ex3 2, p.high ≤ m) ∧
      (∃ p ∈ Indicators.srWindow Ex.ex3 2, m = p.high) :=
  c7_resistance_excludes_current Ex.ex3 2 Ex.exC (Ex.mkC 200 1 2 1)
    (by decide) (by decide)

/-- Claim C8 (amended): the simple-average RSI variant
(src/src/core/indicators/TechnicalIndicators.ts) returns exactly 100
whenever all close-to-close changes over the trailing 14-change window are
non-negative, since the average loss over that window is then zero.  The
Wilder-smoothed variant (src/unnamed/part_005) does not satisfy the claim -
its smoothed average loss incorporates every change of the whole history -
as the counterexample shows. -/
theorem c8_rsi_simple_avg_hundred (prices : List PriceData)
    (hlen : 15 ≤ prices.length)
    (hnn : ∀ c ∈ sliceNeg (Indicators.priceChanges prices) 14, 0 ≤ c) :
    IndicatorsA.calculateRSI prices 14 = .ok 100 := by
  simp only [IndicatorsA.calculateRSI]
  rw [if_neg (by omega)]
  have hfilter :
      (sliceNeg (Indicators.priceChanges prices) 14).filter (fun c => decide (c < 0)) = [] := by
    rw [List.filter_eq_nil_iff]
    intro a ha
    simp only [decide_eq_true_eq, not_lt]
    exact hnn a ha
  simp [hfilter]

/-- Counterexample to claim C8 as stated, on the Wilder variant: a 16-candle
history whose trailing 14 changes are all non-negative but whose first change
is a loss yields RSI 4575/49 (about 93.4), not 100. -/
theorem c8_wilder_rsi_counterexample :
    ((sliceNeg (Indicators.priceChanges Ex.ex16) 14).all fun c => decide (0 ≤ c)) = true ∧
    IndicatorsB.calculateRSI Ex.ex16 14 = .ok (4575/49) ∧
    (4575/49 : ℚ) ≠ 100 := by
  refine ⟨by with_unfolding_all decide, by with_unfolding_all rfl, by with_unfolding_all decide⟩

theorem c8_rsi_simple_avg_hundred_witness :
    15 ≤ Ex.ex16.length ∧ IndicatorsA.calculateRSI Ex.ex16 14 = .ok 100 :=
  ⟨by decide,
   c8_rsi_simple_avg_hundred Ex.ex16 (by decide) (by with_unfolding_all decide)⟩

/-- Dropping fewer elements than the length keeps the last element. -/
theorem getLast?_drop_of_lt (l : List PriceData) (n : Nat) (h : n < l.length) :
    (l.drop n).getLast? = l.getLast? := by
  conv_rhs => rw [← List.take_append_drop n l]
  rw [List.getLast?_append_of_ne_nil]
  intro hcon
  have := congrArg List.length hcon
  simp at this
  omega

/-- The close of the last candle of a trailing slice is the close of the last
candle of the whole history. -/
theorem lastClose_sliceNeg (l : List PriceData) (k : Nat) (hk : k ≠ 0)
    (hl : 0 < l.length) :
    lastClose (sliceNeg l k) = lastClose l := by
  unfold sliceNeg lastClose
  rw [if_neg hk]
  rw [getLast?_drop_of_lt l (l.length - k) (by omega)]

/-- The three-layer trend gate exactly as claim C6 words it: SIDEWAYS whenever
the 10-candle high-low range is below twice ATR(14); otherwise UPTREND exactly
when the second 10-candle half makes a higher high and a higher low than the
first half and EMA20 > EMA50 > EMA200; DOWNTREND under the mirrored
conditions; SIDEWAYS in every other case. -/
def trendGateSpec (prices : List PriceData) : Trend :=
  let atr := Indicators.atrFrom prices 14
  let recent10 := sliceNeg prices 10
  let recentHigh := maxQ (recent10.map PriceData.high)
  let recentLow := minQ (recent10.map PriceData.low)
  let firstHalf := (prices.drop (prices.length - 20)).take 10
  let secondHalf := prices.drop (prices.length - 10)
  let structureBullish :=
    maxQ (firstHalf.map PriceData.high) < maxQ (secondHalf.map PriceData.high) ∧
    minQ (firstHalf.map PriceData.low) < minQ (secondHalf.map PriceData.low)
  let structureBearish :=
    maxQ (secondHalf.map PriceData.high) < maxQ (firstHalf.map PriceData.high) ∧
    minQ (secondHalf.map PriceData.low) < minQ (firstHalf.map PriceData.low)
  let closePrices := prices.map PriceData.close
  let emaBullish :=
    Indicators.emaFrom closePrices 50 < Indicators.emaFrom closePrices 20 ∧
    Indicators.emaFrom closePrices 200 < Indicators.emaFrom closePrices 50
  let emaBearish :=
    Indicators.emaFrom closePrices 20 < Indicators.emaFrom closePrices 50 ∧
    Indicators.emaFrom closePrices 50 < Indicators.emaFrom closePrices 200
  if recentHigh - recentLow < 2 * atr then .SIDEWAYS
  else if structureBullish ∧ emaBullish then .UPTREND
  else if structureBearish ∧ emaBearish then .DOWNTREND
  else .SIDEWAYS

set_option maxHeartbeats 2000000 in
/-- Claim C6 (amended): for histories of at least 200 candles (so that all
three EMAs are computable) with a positive current price, detectTrend
implements exactly the three-layer gate worded by the claim, formalised by
the trendGateSpec refinement: SIDEWAYS whenever the 10-candle range is below
2 × ATR(14), UPTREND only for a higher-high/higher-low second half together
with a bullish EMA20/EMA50/EMA200 stack, DOWNTREND for the mirrored
conditions, SIDEWAYS otherwise.  For histories of 50 to 199 candles that pass
the range and structure layers the source instead fails with an
insufficient-data error (see the counterexample), which callers catch. -/
theorem c6_detect_trend_three_layer_gate (prices : List PriceData)
    (hlen : 200 ≤ prices.length) (hpos : 0 < lastClose prices) :
    IndicatorsB.detectTrend prices 20 50 = .ok (trendGateSpec prices) := by
  have hcur : lastClose (sliceNeg prices 20) = lastClose prices :=
    lastClose_sliceNeg prices 20 (by omega) (by omega)
  have hatr : Indicators.calculateATR prices 14 =
      .ok (Indicators.atrFrom prices 14) := by
    unfold Indicators.calculateATR
    rw [if_neg (by omega)]
  have hlenc : (prices.map PriceData.close).length = prices.length :=
    List.length_map prices PriceData.close
  have hema : ∀ k : Nat, k ≤ 200 →
      Indicators.calculateEMA (prices.map PriceData.close) k =
        .ok (Indicators.emaFrom (prices.map PriceData.close) k) := by
    intro k hk
    unfold Indicators.calculateEMA
    rw [if_neg (by omega)]
  have hrange :
      (maxQ ((sliceNeg prices 10).map PriceData.high) -
          minQ ((sliceNeg prices 10).map PriceData.low)) / lastClose prices <
        Indicators.atrFrom prices 14 / lastClose prices * 2 ↔
      maxQ ((sliceNeg prices 10).map PriceData.high) -
          minQ ((sliceNeg prices 10).map PriceData.low) <
        2 * Indicators.atrFrom prices 14 := by
    rw [show Indicators.atrFrom prices 14 / lastClose prices * 2 =
        2 * Indicators.atrFrom prices 14 / lastClose prices from by ring]
    exact div_lt_div_iff_of_pos_right hpos
  simp only [IndicatorsB.detectTrend, trendGateSpec]
  rw [if_neg (by omega), hcur, hatr]
  simp only
  rw [hema 20 (by omega), hema 50 (by omega), hema 200 (by omega)]
  simp only
  by_cases hr :
      maxQ ((sliceNeg prices 10).map PriceData.high) -
          minQ ((sliceNeg prices 10).map PriceData.low) <
        2 * Indicators.atrFrom prices 14
  · rw [if_pos (hrange.mpr hr), if_pos hr]
  · rw [if_neg (fun hcon => hr (hrange.mp hcon)), if_neg hr]
    split
    · rename_i hmixed
      rw [if_neg (by tauto), if_neg (by tauto)]
    · rename_i hmixed
      split
      · rfl
      · split
        · rfl
        · rfl

namespace Ex

/-- 50 staircase candles: close, high and low all equal i + 1 for candle i.
The ATR is 1, the 10-candle range is 9 (so the range filter passes) and the
structure is cleanly bullish, yet only 50 candles exist, so the EMA(200) call
inside detectTrend fails. -/
def stair50 : List PriceData :=
  (List.range 50).map fun i => mkC (i + 1 : ℚ) (i + 1 : ℚ) (i + 1 : ℚ) 1

/-- 200 identical candles for the C6 witness. -/
def flat200 : List PriceData := List.replicate 200 (mkC 1 1 1 1)

end Ex

set_option maxRecDepth 4000 in
/-- Counterexample to claim C6 as stated: a 50-candle staircase history
passes the ATR-range layer and has cleanly bullish structure, so the claim
requires detectTrend to return a trend classification (SIDEWAYS at worst),
but the EMA(200) computation throws and detectTrend propagates the error
instead of returning SIDEWAYS. -/
theorem c6_detect_trend_insufficient_ema_counterexample :
    (50 ≤ Ex.stair50.length) ∧
    IndicatorsB.detectTrend Ex.stair50 20 50 =
      .error "Insufficient data for EMA calculation" := by
  refine ⟨by decide, ?_⟩
  with_unfolding_all rfl

set_option maxRecDepth 8000 in
theorem c6_detect_trend_three_layer_gate_witness :
    200 ≤ Ex.flat200.length ∧
    IndicatorsB.detectTrend Ex.flat200 20 50 = .ok (trendGateSpec Ex.flat200) :=
  ⟨by decide,
   c6_detect_trend_three_layer_gate Ex.flat200 (by decide) (by with_unfolding_all decide)⟩
